import Mathlib

/-!
Verification of the Supabase auth integration layer:
the client service wrapper (`src/client/src/lib/auth.ts`), the session
context provider, and the SQL migration
(`supabase/migrations/20250801050644_steep_morning.sql`) defining the
`profiles` table, its row-level-security policies and its triggers.

The hosted SDK (network, credential check, session store) is modelled as
an environment of responses; each client function is a pure function of
its inputs and that environment, returning its result together with the
list of effects (SDK calls issued and `console.error` log lines), in the
order the TypeScript source performs them.
-/

/-- The `user_role` enum from the migration: exactly three values. -/
inductive Role where
  | user
  | admin
  | instructor
deriving DecidableEq, Repr

/-- An error value returned by the SDK or synthesized locally
(`AuthError` / `Error` in the TypeScript source). -/
structure AuthError where
  message : String
deriving DecidableEq, Repr

/-- A row of the `profiles` table. Timestamps are modelled as `Nat`. -/
structure Profile where
  id : Nat
  email : String
  full_name : Option String
  avatar_url : Option String
  role : Role
  created_at : Nat
  updated_at : Nat
deriving DecidableEq, Repr

/-- The provider-owned `auth.users` row, restricted to the fields this
codebase reads: `id`, `email` and the signup metadata blob
(`raw_user_meta_data`'s `full_name` and `role` keys). -/
structure SupaUser where
  id : Nat
  email : String
  meta_full_name : Option String
  meta_role : Option Role
deriving DecidableEq, Repr

/-- A provider session (only the owning user is relevant here). -/
structure Session where
  userId : Nat
deriving DecidableEq, Repr

/-- The three columns `getUserWithProfile` selects from `profiles`. -/
structure ProfileView where
  full_name : Option String
  avatar_url : Option String
  role : Role
deriving DecidableEq, Repr

/-- The client-side `AuthUser` type: a provider user with an optional
attached profile object. -/
structure AuthUser where
  base : SupaUser
  profile : Option ProfileView
deriving DecidableEq, Repr

/-- `SignUpData` from auth.ts: email, password, optional full name,
optional role. -/
structure SignUpData where
  email : String
  password : String
  fullName : Option String
  role : Option Role
deriving DecidableEq, Repr

/-- `AuthResponse` from auth.ts. -/
structure AuthResponse where
  user : Option AuthUser
  session : Option Session
  error : Option AuthError
deriving DecidableEq, Repr

/-- The SDK entry points the service wrapper invokes. -/
inductive SdkCall where
  | authSignUp
  | profilesInsert
  | signInWithPassword
  | authSignOut
  | authGetSession
  | authGetUser
  | profilesSelect
  | profilesUpdate
  | resetPasswordForEmail
  | authUpdateUser
deriving DecidableEq, Repr

/-- An observable effect of a service call: an SDK invocation or a
`console.error` line (message text plus the logged error value). -/
inductive Event where
  | call (c : SdkCall)
  | log (msg : String) (e : Option AuthError)
deriving DecidableEq, Repr

/-- Environment for one `AuthService.signUp` invocation: what
`supabase.auth.signUp` returns (error, user, session) and whether the
subsequent `profiles` insert fails. -/
structure SignUpEnv where
  authError : Option AuthError
  authUser : Option SupaUser
  authSession : Option Session
  profileInsertError : Option AuthError

namespace AuthService

/-- `AuthService.signUp` from auth.ts: destructures
`role = 'user'` by default, calls `supabase.auth.signUp`, returns the
auth error if any; otherwise, if a user was created, inserts a matching
`profiles` row, logging (but not returning) any insert error; finally
returns the created user and session with `error: null`. -/
def signUp (env : SignUpEnv) (data : SignUpData) : AuthResponse × List Event :=
  match env.authError with
  | some e =>
      ({ user := none, session := none, error := some e },
       [Event.call SdkCall.authSignUp, Event.log "Sign up error:" (some e)])
  | none =>
      match env.authUser with
      | some _ =>
          match env.profileInsertError with
          | some pe =>
              ({ user := env.authUser.map (fun u => { base := u, profile := none }),
                 session := env.authSession, error := none },
               [Event.call SdkCall.authSignUp, Event.call SdkCall.profilesInsert,
                Event.log "Profile creation error:" (some pe)])
          | none =>
              ({ user := env.authUser.map (fun u => { base := u, profile := none }),
                 session := env.authSession, error := none },
               [Event.call SdkCall.authSignUp, Event.call SdkCall.profilesInsert])
      | none =>
          ({ user := none, session := env.authSession, error := none },
           [Event.call SdkCall.authSignUp])

end AuthService

/-! ## Database-side model (the migration) -/

/-- The `profiles` table as a list of rows. -/
def DB := List Profile

instance : Membership Profile DB := inferInstanceAs (Membership Profile (List Profile))

/-- The values an `INSERT INTO profiles (id, email, full_name, role)`
statement supplies (the remaining columns take their defaults). -/
structure InsertReq where
  id : Nat
  email : String
  full_name : Option String
  role : Role
deriving DecidableEq, Repr

/-- Materialize an insert request as a row, with `avatar_url` NULL and
`created_at` / `updated_at` defaulting to `NOW()`. -/
def InsertReq.toRow (r : InsertReq) (now : Nat) : Profile :=
  { id := r.id, email := r.email, full_name := r.full_name,
    avatar_url := none, role := r.role, created_at := now, updated_at := now }

/-- Insert into `profiles`, enforcing the PRIMARY KEY on `id` and the
UNIQUE constraint on `email`: a duplicate raises a constraint error and
leaves the table unchanged. -/
def insertProfile (db : DB) (r : InsertReq) (now : Nat) : Except AuthError DB :=
  if db.any (fun p => p.id == r.id) then
    Except.error { message := "duplicate key value violates profiles_pkey" }
  else if db.any (fun p => p.email == r.email) then
    Except.error { message := "duplicate key value violates profiles_email_key" }
  else
    Except.ok (r.toRow now :: db)

/-- The `handle_new_user` trigger function: on a new `auth.users` row,
insert a profile with `COALESCE(meta full_name, '')` and
`COALESCE(meta role, 'user')`. -/
def handle_new_user (u : SupaUser) : InsertReq :=
  { id := u.id, email := u.email,
    full_name := some (u.meta_full_name.getD ""),
    role := u.meta_role.getD Role.user }

/-- The `auth.users` row `supabase.auth.signUp` creates for a signup
request: the metadata carries `full_name := fullName` and
`role := role` where `role` already defaulted to `'user'`
(the `role = 'user'` destructuring in auth.ts line 38). -/
def mkAuthUser (uid : Nat) (data : SignUpData) : SupaUser :=
  { id := uid, email := data.email,
    meta_full_name := data.fullName,
    meta_role := some (data.role.getD Role.user) }

/-- The insert request issued by the client-side `signUp` after the
provider call succeeds (auth.ts lines 59-66). -/
def clientInsertReq (u : SupaUser) (data : SignUpData) : InsertReq :=
  { id := u.id, email := u.email, full_name := data.fullName,
    role := data.role.getD Role.user }

/-- Run one insert attempt, keeping the table unchanged when the insert
errors (the error is surfaced to the caller, not retried). -/
def tryInsert (db : DB) (r : InsertReq) (now : Nat) : DB :=
  match insertProfile db r now with
  | Except.ok d => d
  | Except.error _ => db

/-- The full two-path profile creation a signup triggers, in source
order: the `on_auth_user_created` AFTER INSERT trigger fires first, then
the client-side insert inside `AuthService.signUp` runs. -/
def signUpFlow (db : DB) (uid : Nat) (data : SignUpData) (now now2 : Nat) : DB :=
  tryInsert (tryInsert db (handle_new_user (mkAuthUser uid data)) now)
    (clientInsertReq (mkAuthUser uid data) data) now2

/-- Number of `profiles` rows whose `id` equals `uid`. -/
def countFor (db : DB) (uid : Nat) : Nat :=
  db.countP (fun p => p.id == uid)

/-- `SELECT ... FROM profiles WHERE id = uid` (first matching row). -/
def findProfile (db : DB) (uid : Nat) : Option Profile :=
  db.find? (fun p => p.id == uid)

/-- C1 helper: a concrete environment where provider signup succeeds but
the profile insert fails. -/
def c1User : SupaUser :=
  { id := 7, email := "a@x.com", meta_full_name := some "Ann", meta_role := some Role.user }

def c1Env : SignUpEnv :=
  { authError := none, authUser := some c1User, authSession := some { userId := 7 },
    profileInsertError := some { message := "insert failed" } }

def c1Data : SignUpData :=
  { email := "a@x.com", password := "secret1", fullName := some "Ann", role := none }

/-- C1: when provider signup succeeds but the profile insert fails,
`AuthService.signUp` logs the insert error and still returns the created
user with `error = null`. -/
theorem signUp_swallows_profile_insert_error
    (env : SignUpEnv) (data : SignUpData) (u : SupaUser) (pe : AuthError)
    (hA : env.authError = none) (hU : env.authUser = some u)
    (hP : env.profileInsertError = some pe) :
    (AuthService.signUp env data).1 =
      { user := some { base := u, profile := none },
        session := env.authSession, error := none } ∧
    Event.log "Profile creation error:" (some pe) ∈ (AuthService.signUp env data).2 := by
  unfold AuthService.signUp
  rw [hA, hU, hP]
  simp

/-- A failed insert never changes the table; a successful one conses the
new row. -/
theorem tryInsert_cases (db : DB) (r : InsertReq) (now : Nat) :
    tryInsert db r now = db ∨
    (tryInsert db r now = r.toRow now :: db ∧ countFor db r.id = 0) := by
  unfold tryInsert insertProfile
  by_cases h1 : db.any (fun p => p.id == r.id) = true
  · left; simp [h1]
  · by_cases h2 : db.any (fun p => p.email == r.email) = true
    · left; simp [h1, h2]
    · right
      refine ⟨by simp [h1, h2], ?_⟩
      refine List.countP_eq_zero.mpr ?_
      intro p hp
      exact (List.any_eq_false.mp (Bool.eq_false_iff.mpr h1)) p hp

/-- An insert attempt keeps the per-user row count at most one: when a
row with that id already exists, the PRIMARY KEY rejects the insert. -/
theorem tryInsert_count_le (db : DB) (r : InsertReq) (now uid : Nat)
    (h : countFor db uid ≤ 1) : countFor (tryInsert db r now) uid ≤ 1 := by
  rcases tryInsert_cases db r now with heq | ⟨heq, hzero⟩
  · rw [heq]; exact h
  · rw [heq]
    unfold countFor at *
    rw [List.countP_cons]
    by_cases hid : r.id = uid
    · subst hid
      simp [InsertReq.toRow, hzero]
    · simp only [InsertReq.toRow]
      simp [hid]
      exact h

/-- Rows present after an insert attempt were already present or carry
the inserted id. -/
theorem tryInsert_mem (db : DB) (r : InsertReq) (now : Nat) :
    ∀ p ∈ tryInsert db r now, p ∈ db ∨ p.id = r.id := by
  rcases tryInsert_cases db r now with heq | ⟨heq, -⟩
  · rw [heq]; exact fun p hp => Or.inl hp
  · rw [heq]
    intro p hp
    rcases List.mem_cons.mp hp with hh | ht
    · right; rw [hh]; rfl
    · left; exact ht

/-- C2: a signup attempts profile creation twice (database trigger, then
client insert), yet the table never holds more than one row per user,
and every row created by either path has `id = user.id`. -/
theorem signUpFlow_at_most_one_profile
    (db : DB) (uid : Nat) (data : SignUpData) (now now2 : Nat)
    (h : countFor db uid ≤ 1) :
    countFor (signUpFlow db uid data now now2) uid ≤ 1 ∧
    ∀ p ∈ signUpFlow db uid data now now2, p ∈ db ∨ p.id = uid := by
  unfold signUpFlow
  constructor
  · exact tryInsert_count_le _ _ _ _ (tryInsert_count_le _ _ _ _ h)
  · intro p hp
    rcases tryInsert_mem _ _ _ p hp with h1 | h1
    · rcases tryInsert_mem _ _ _ p h1 with h2 | h2
      · exact Or.inl h2
      · exact Or.inr h2
    · exact Or.inr h1

/-- A concrete pre-existing row used by the witnesses below. -/
def seedRow : Profile where
  id := 3
  email := "b@x.com"
  full_name := none
  avatar_url := none
  role := Role.admin
  created_at := 0
  updated_at := 0

/-- C2 witness: a concrete signup over a one-row table. -/
theorem signUpFlow_at_most_one_profile_witness :
    countFor (signUpFlow [seedRow] 7 c1Data 1 2) 7 ≤ 1 ∧
    ∀ p ∈ signUpFlow [seedRow] 7 c1Data 1 2,
      p ∈ ([seedRow] : DB) ∨ p.id = 7 :=
  signUpFlow_at_most_one_profile [seedRow] 7 c1Data 1 2 (by decide)

/-- C3: when no role is supplied at signup, the profile subsequently
fetched for that user id has role `user`; and every stored role is one
of exactly the three enum values. -/
theorem signUpFlow_default_role
    (db : DB) (uid : Nat) (data : SignUpData) (now now2 : Nat)
    (hrole : data.role = none)
    (hid : countFor db uid = 0)
    (hemail : ∀ p ∈ db, p.email ≠ data.email) :
    (∃ p, findProfile (signUpFlow db uid data now now2) uid = some p ∧
      p.role = Role.user) ∧
    ∀ p ∈ signUpFlow db uid data now now2,
      p.role = Role.user ∨ p.role = Role.admin ∨ p.role = Role.instructor := by
  have hany1 : db.any (fun p => p.id == uid) = false := by
    rw [List.any_eq_false]
    intro p hp
    exact List.countP_eq_zero.mp hid p hp
  have hany2 : db.any (fun p => p.email == data.email) = false := by
    rw [List.any_eq_false]
    intro p hp
    simpa using hemail p hp
  have hid1 : (handle_new_user (mkAuthUser uid data)).id = uid := rfl
  have hemail1 : (handle_new_user (mkAuthUser uid data)).email = data.email := rfl
  have e1 : tryInsert db (handle_new_user (mkAuthUser uid data)) now
      = (handle_new_user (mkAuthUser uid data)).toRow now :: db := by
    unfold tryInsert insertProfile
    rw [hid1, hemail1, hany1, hany2]
    simp
  have hhead : (((handle_new_user (mkAuthUser uid data)).toRow now :: db).any
      (fun p => p.id == (clientInsertReq (mkAuthUser uid data) data).id)) = true := by
    apply List.any_eq_true.mpr
    refine ⟨(handle_new_user (mkAuthUser uid data)).toRow now, List.mem_cons_self _ _, ?_⟩
    simp [InsertReq.toRow, handle_new_user, mkAuthUser, clientInsertReq]
  have e2 : tryInsert ((handle_new_user (mkAuthUser uid data)).toRow now :: db)
      (clientInsertReq (mkAuthUser uid data) data) now2
      = (handle_new_user (mkAuthUser uid data)).toRow now :: db := by
    unfold tryInsert insertProfile
    rw [hhead]
    simp
  constructor
  · unfold signUpFlow
    rw [e1, e2]
    refine ⟨(handle_new_user (mkAuthUser uid data)).toRow now, ?_, ?_⟩
    · unfold findProfile
      rw [List.find?_cons_of_pos]
      simp [InsertReq.toRow, handle_new_user, mkAuthUser]
    · simp [InsertReq.toRow, handle_new_user, mkAuthUser, hrole]
  · intro p _
    cases p.role with
    | user => exact Or.inl rfl
    | admin => exact Or.inr (Or.inl rfl)
    | instructor => exact Or.inr (Or.inr rfl)

/-- C3 witness: a concrete role-omitted signup over a one-row table. -/
theorem signUpFlow_default_role_witness :
    (∃ p, findProfile (signUpFlow [seedRow] 7 c1Data 1 2) 7 = some p ∧
      p.role = Role.user) ∧
    ∀ p ∈ signUpFlow [seedRow] 7 c1Data 1 2,
      p.role = Role.user ∨ p.role = Role.admin ∨ p.role = Role.instructor :=
  signUpFlow_default_role [seedRow] 7 c1Data 1 2 rfl (by decide) (by decide)

/-- C1 witness: the theorem instantiated at a concrete environment. -/
theorem signUp_swallows_profile_insert_error_witness :
    (AuthService.signUp c1Env c1Data).1 =
      { user := some { base := c1User, profile := none },
        session := some { userId := 7 }, error := none } ∧
    Event.log "Profile creation error:" (some { message := "insert failed" })
      ∈ (AuthService.signUp c1Env c1Data).2 := by
  have h := signUp_swallows_profile_insert_error c1Env c1Data c1User
    { message := "insert failed" } rfl rfl rfl
  simpa using h

/-! ## Profile updates and the `updated_at` trigger -/

/-- The partial update object `AuthService.updateProfile` accepts
(`full_name?`, `avatar_url?`); a `none` field is absent. -/
structure UpdateReq where
  full_name : Option String
  avatar_url : Option String
deriving DecidableEq, Repr

/-- The row the client update statement proposes: present fields
overwrite, and `updated_at` is set to the client clock
(`new Date().toISOString()` in auth.ts line 231). -/
def clientUpdateRow (p : Profile) (upd : UpdateReq) (clientTime : Nat) : Profile :=
  { p with
    full_name := match upd.full_name with
      | some s => some s
      | none => p.full_name,
    avatar_url := match upd.avatar_url with
      | some s => some s
      | none => p.avatar_url,
    updated_at := clientTime }

/-- The `update_updated_at_column` trigger function: before every
UPDATE, rewrite `NEW.updated_at` to `NOW()`, discarding whatever value
the statement supplied. -/
def update_updated_at_column (new : Profile) (now : Nat) : Profile :=
  { new with updated_at := now }

/-- `UPDATE profiles SET ... WHERE id = uid`, with the BEFORE UPDATE
trigger applied to every written row. -/
def dbUpdateProfile (db : DB) (uid : Nat) (upd : UpdateReq)
    (clientTime now : Nat) : DB :=
  db.map fun p =>
    if p.id == uid then update_updated_at_column (clientUpdateRow p upd clientTime) now
    else p

/-- Environment for `getUserWithProfile` / `getCurrentUser`: what
`supabase.auth.getUser` returns, and the result of the profile select
for a given id. -/
structure GetUserEnv where
  userError : Option AuthError
  user : Option SupaUser
  profileFor : Nat → Except AuthError ProfileView

namespace AuthService

/-- `AuthService.getUserWithProfile` from auth.ts: calls
`supabase.auth.getUser`, returns null on error or missing user;
otherwise selects `full_name, avatar_url, role` for `userId`, returning
the bare user (insert error logged) when the select fails, and the user
with the profile attached when it succeeds. -/
def getUserWithProfile (env : GetUserEnv) (userId : Nat) :
    Option AuthUser × List Event :=
  match env.userError, env.user with
  | some _, _ => (none, [Event.call SdkCall.authGetUser])
  | none, none => (none, [Event.call SdkCall.authGetUser])
  | none, some u =>
      match env.profileFor userId with
      | Except.error pe =>
          (some { base := u, profile := none },
           [Event.call SdkCall.authGetUser, Event.call SdkCall.profilesSelect,
            Event.log "Profile fetch error:" (some pe)])
      | Except.ok pv =>
          (some { base := u, profile := some pv },
           [Event.call SdkCall.authGetUser, Event.call SdkCall.profilesSelect])

/-- `AuthService.getCurrentUser` from auth.ts: calls
`supabase.auth.getUser`; on error or missing user logs and returns null;
otherwise delegates to `getUserWithProfile` with the user's id. -/
def getCurrentUser (env : GetUserEnv) : Option AuthUser × List Event :=
  match env.userError with
  | some e => (none, [Event.call SdkCall.authGetUser, Event.log "Get user error:" (some e)])
  | none =>
      match env.user with
      | none => (none, [Event.call SdkCall.authGetUser, Event.log "Get user error:" none])
      | some u =>
          ((getUserWithProfile env u.id).1,
           Event.call SdkCall.authGetUser :: (getUserWithProfile env u.id).2)

end AuthService

/-- Environment for one `AuthService.updateProfile` invocation: the
environment of its internal `getCurrentUser` call and whether the table
update statement fails. -/
structure UpdateEnv where
  genv : GetUserEnv
  updateError : Option AuthError

namespace AuthService

/-- `AuthService.updateProfile` from auth.ts: fetches the current user;
with none, returns a locally synthesized `Error('No authenticated
user')` without touching the table; otherwise issues
`UPDATE profiles ... WHERE id = user.id`, surfacing any update error. -/
def updateProfile (env : UpdateEnv) (upd : UpdateReq) (db : DB)
    (clientTime now : Nat) : (Option AuthError × DB) × List Event :=
  match (getCurrentUser env.genv).1 with
  | none =>
      ((some { message := "No authenticated user" }, db),
       (getCurrentUser env.genv).2)
  | some u =>
      match env.updateError with
      | some e =>
          ((some e, db),
           (getCurrentUser env.genv).2 ++
             [Event.call SdkCall.profilesUpdate,
              Event.log "Profile update error:" (some e)])
      | none =>
          ((none, dbUpdateProfile db u.base.id upd clientTime now),
           (getCurrentUser env.genv).2 ++ [Event.call SdkCall.profilesUpdate])

end AuthService

/-- Rows whose id differs from the updated id keep their exact value. -/
theorem dbUpdateProfile_frame (db : DB) (uid : Nat) (upd : UpdateReq)
    (ct now : Nat) :
    ∀ p ∈ db, p.id ≠ uid → p ∈ dbUpdateProfile db uid upd ct now := by
  intro p hp hne
  unfold dbUpdateProfile
  refine List.mem_map.mpr ⟨p, hp, ?_⟩
  simp [hne]

/-- Every row of the updated table comes from a row of the old table:
unchanged when its id differs from the target, rewritten by the client
statement plus trigger when it matches. -/
theorem dbUpdateProfile_mem (db : DB) (uid : Nat) (upd : UpdateReq)
    (ct now : Nat) :
    ∀ q ∈ dbUpdateProfile db uid upd ct now, ∃ p ∈ db,
      (p.id ≠ uid ∧ q = p) ∨
      (p.id = uid ∧ q = update_updated_at_column (clientUpdateRow p upd ct) now) := by
  intro q hq
  unfold dbUpdateProfile at hq
  rcases List.mem_map.mp hq with ⟨p, hp, he⟩
  by_cases hid : p.id = uid
  · refine ⟨p, hp, Or.inr ⟨hid, ?_⟩⟩
    rw [← he]
    simp [hid]
  · refine ⟨p, hp, Or.inl ⟨hid, ?_⟩⟩
    rw [← he]
    simp [hid]

/-- C4: without an authenticated user, `updateProfile` returns the
locally synthesized error and leaves every row unchanged; with one, it
succeeds, touches only the row whose id is the caller's, and stamps that
row's `updated_at`. -/
theorem updateProfile_auth_guard (env : UpdateEnv) (upd : UpdateReq)
    (db : DB) (ct now : Nat) :
    ((AuthService.getCurrentUser env.genv).1 = none →
      (AuthService.updateProfile env upd db ct now).1 =
        (some { message := "No authenticated user" }, db)) ∧
    (∀ u, (AuthService.getCurrentUser env.genv).1 = some u →
      env.updateError = none →
      (AuthService.updateProfile env upd db ct now).1 =
        (none, dbUpdateProfile db u.base.id upd ct now) ∧
      (∀ p ∈ db, p.id ≠ u.base.id → p ∈ dbUpdateProfile db u.base.id upd ct now) ∧
      (∀ q ∈ dbUpdateProfile db u.base.id upd ct now, q.id = u.base.id →
        q.updated_at = now)) := by
  constructor
  · intro h
    unfold AuthService.updateProfile
    rw [h]
  · intro u hu hupd
    refine ⟨?_, dbUpdateProfile_frame db u.base.id upd ct now, ?_⟩
    · unfold AuthService.updateProfile
      rw [hu, hupd]
    · intro q hq hqid
      rcases dbUpdateProfile_mem db u.base.id upd ct now q hq with ⟨p, hp, hc | hc⟩
      · rw [hc.2] at hqid
        exact absurd hqid hc.1
      · rw [hc.2]
        rfl

/-- A profile view and environments used by the witnesses below. -/
def pvEx : ProfileView where
  full_name := some "Ann"
  avatar_url := none
  role := Role.user

def envNoAuth : UpdateEnv where
  genv :=
    { userError := some { message := "network error" }, user := none,
      profileFor := fun _ => Except.error { message := "x" } }
  updateError := none

def envAuth : UpdateEnv where
  genv :=
    { userError := none, user := some c1User,
      profileFor := fun _ => Except.ok pvEx }
  updateError := none

def updEx : UpdateReq where
  full_name := some "New Name"
  avatar_url := none

/-- C4 witness: both branches at concrete environments. -/
theorem updateProfile_auth_guard_witness :
    (AuthService.updateProfile envNoAuth updEx [seedRow] 5 6).1 =
      (some { message := "No authenticated user" }, [seedRow]) ∧
    (AuthService.updateProfile envAuth updEx [seedRow] 5 6).1 =
      (none, dbUpdateProfile [seedRow] 7 updEx 5 6) :=
  ⟨(updateProfile_auth_guard envNoAuth updEx [seedRow] 5 6).1 rfl,
   ((updateProfile_auth_guard envAuth updEx [seedRow] 5 6).2
      { base := c1User, profile := some pvEx } rfl rfl).1⟩

/-- C5: the BEFORE UPDATE trigger rewrites `updated_at` to the current
time whatever value the client statement supplied, so after a successful
update issued strictly later than the row's last write, `updated_at`
strictly increases. -/
theorem updated_at_strictly_increases (p : Profile) (upd : UpdateReq)
    (clientTime now : Nat) (h : p.updated_at < now) :
    (update_updated_at_column (clientUpdateRow p upd clientTime) now).updated_at = now ∧
    p.updated_at <
      (update_updated_at_column (clientUpdateRow p upd clientTime) now).updated_at :=
  ⟨rfl, h⟩

/-- C5 witness: a stale client clock (999) cannot prevent the trigger
from stamping the row with the database clock (1). -/
theorem updated_at_strictly_increases_witness :
    (update_updated_at_column (clientUpdateRow seedRow updEx 999) 1).updated_at = 1 ∧
    seedRow.updated_at <
      (update_updated_at_column (clientUpdateRow seedRow updEx 999) 1).updated_at :=
  updated_at_strictly_increases seedRow updEx 999 1 (by decide)

/-! ## Provider session state, sign-out, and the session context -/

/-- The slice of hosted-provider state this codebase observes: the
current session, the user each session resolves to, and the profile
select result for a given id. -/
structure Provider where
  session : Option Session
  userOf : Nat → SupaUser
  profileFor : Nat → Except AuthError ProfileView

/-- `supabase.auth.signOut` terminates the current session. -/
def Provider.terminateSession (p : Provider) : Provider :=
  { p with session := none }

/-- What `supabase.auth.getUser` reports in a given provider state: the
session's user, or an auth-session-missing error when signed out. -/
def Provider.getUserEnv (p : Provider) : GetUserEnv :=
  match p.session with
  | some s =>
      { userError := none, user := some (p.userOf s.userId),
        profileFor := p.profileFor }
  | none =>
      { userError := some { message := "Auth session missing" }, user := none,
        profileFor := p.profileFor }

namespace AuthService

/-- `AuthService.signOut` from auth.ts: calls `supabase.auth.signOut`,
surfacing its error unchanged, and otherwise reports success. -/
def signOut (p : Provider) (err : Option AuthError) :
    (Option AuthError × Provider) × List Event :=
  match err with
  | some e =>
      ((some e, p),
       [Event.call SdkCall.authSignOut, Event.log "Sign out error:" (some e)])
  | none => ((none, p.terminateSession), [Event.call SdkCall.authSignOut])

end AuthService

/-- The `AuthProvider` context's cached state: current user, session,
loading flag and the derived admin flag. -/
structure AuthState where
  user : Option AuthUser
  session : Option Session
  loading : Bool
  isAdmin : Bool
deriving DecidableEq, Repr

/-- `userWithProfile?.profile?.role === 'admin' || false`. -/
def isAdminOf (u : Option AuthUser) : Bool :=
  match u with
  | some au =>
      match au.profile with
      | some pv => pv.role == Role.admin
      | none => false
  | none => false

/-- The `onAuthStateChange` subscription callback of the context
(part_001 lines 62-77): store the session; with a session present,
cache the freshly fetched user and re-derive the admin flag; with none,
reset the cached user and admin flag; clear the loading flag. -/
def onAuthChange (session : Option Session) (fetchedUser : Option AuthUser)
    (st : AuthState) : AuthState :=
  match session with
  | some s =>
      { st with
          session := some s
          user := fetchedUser
          isAdmin := isAdminOf fetchedUser
          loading := false }
  | none =>
      { st with
          session := none
          user := none
          isAdmin := false
          loading := false }

/-- C6: a successful sign-out reports no error, `getCurrentUser`
afterwards yields null, and the sign-out auth event (null session)
resets the context's cached user and admin flag. -/
theorem signOut_clears_user (p : Provider) (st : AuthState)
    (fu : Option AuthUser) :
    (AuthService.signOut p none).1.1 = none ∧
    (AuthService.getCurrentUser
      (Provider.getUserEnv (AuthService.signOut p none).1.2)).1 = none ∧
    (onAuthChange none fu st).user = none ∧
    (onAuthChange none fu st).isAdmin = false :=
  ⟨rfl, rfl, rfl, rfl⟩

/-! ## Row-level-security policies on UPDATE -/

/-- The admin policy condition: `EXISTS (SELECT 1 FROM profiles WHERE
id = auth.uid() AND role = 'admin')`. -/
def isAdminInDb (db : DB) (uid : Nat) : Bool :=
  db.any (fun p => p.id == uid && p.role == Role.admin)

/-- A row passes the UPDATE policies when the self policy
(`auth.uid() = id`) or the admin policy holds; rows failing both are
invisible to the statement and stay untouched. -/
def policyAllows (db : DB) (callerId : Nat) (p : Profile) : Bool :=
  (callerId == p.id) || isAdminInDb db callerId

/-- `UPDATE profiles ... WHERE id = targetId` as executed under RLS for
an authenticated caller: only rows matching the filter and passing a
policy are written (and then stamped by the BEFORE UPDATE trigger). -/
def rlsUpdateProfiles (db : DB) (callerId targetId : Nat) (upd : UpdateReq)
    (ct now : Nat) : DB :=
  db.map fun p =>
    if p.id == targetId && policyAllows db callerId p then
      update_updated_at_column (clientUpdateRow p upd ct) now
    else p

/-- C7: a non-admin caller's update leaves every row with a different id
untouched, and a cross-user update is denied outright (the table is
unchanged); a caller whose profile row has role admin updates any
targeted row. -/
theorem rls_update_frame (db : DB) (callerId targetId : Nat)
    (upd : UpdateReq) (ct now : Nat) :
    (isAdminInDb db callerId = false →
      (∀ p ∈ db, p.id ≠ callerId →
        p ∈ rlsUpdateProfiles db callerId targetId upd ct now) ∧
      (targetId ≠ callerId →
        rlsUpdateProfiles db callerId targetId upd ct now = db)) ∧
    (isAdminInDb db callerId = true →
      rlsUpdateProfiles db callerId targetId upd ct now =
        db.map fun p =>
          if p.id == targetId then
            update_updated_at_column (clientUpdateRow p upd ct) now
          else p) := by
  constructor
  · intro hNA
    constructor
    · intro p hp hne
      unfold rlsUpdateProfiles
      refine List.mem_map.mpr ⟨p, hp, ?_⟩
      have hpol : policyAllows db callerId p = false := by
        unfold policyAllows
        rw [hNA]
        simp
        exact fun h => absurd h.symm hne
      rw [hpol]
      simp
    · intro hcross
      unfold rlsUpdateProfiles
      have : ∀ p ∈ db, (if p.id == targetId && policyAllows db callerId p then
          update_updated_at_column (clientUpdateRow p upd ct) now else p) = p := by
        intro p hp
        by_cases ht : p.id = targetId
        · have hpol : policyAllows db callerId p = false := by
            unfold policyAllows
            rw [hNA, ht]
            simp
            exact fun h => absurd h hcross.symm
          rw [hpol]
          simp
        · simp [ht]
      rw [List.map_congr_left this]
      exact List.map_id db
  · intro hA
    unfold rlsUpdateProfiles
    apply List.map_congr_left
    intro p hp
    have hpol : policyAllows db callerId p = true := by
      unfold policyAllows
      rw [hA]
      simp
    rw [hpol]
    by_cases ht : p.id = targetId
    · simp [ht]
    · simp [ht]

/-- A non-admin row used by the C7 witness. -/
def memberRow : Profile where
  id := 2
  email := "c@x.com"
  full_name := some "Mem"
  avatar_url := none
  role := Role.user
  created_at := 0
  updated_at := 0

/-- C7 witness: over a table holding an admin (id 3) and a member
(id 2), the member's cross-user update on row 3 is denied (table
unchanged), while the admin updates row 2. -/
theorem rls_update_frame_witness :
    rlsUpdateProfiles [seedRow, memberRow] 2 3 updEx 5 6 = [seedRow, memberRow] ∧
    rlsUpdateProfiles [seedRow, memberRow] 3 2 updEx 5 6 =
      List.map (fun p =>
        if p.id == 2 then update_updated_at_column (clientUpdateRow p updEx 5) 6
        else p) [seedRow, memberRow] :=
  ⟨((rls_update_frame [seedRow, memberRow] 2 3 updEx 5 6).1 (by decide)).2 (by decide),
   (rls_update_frame [seedRow, memberRow] 3 2 updEx 5 6).2 (by decide)⟩

/-! ## Sign-in -/

/-- `SignInData` from auth.ts. -/
structure SignInData where
  email : String
  password : String
deriving DecidableEq, Repr

/-- Environment for one `AuthService.signIn` invocation: what
`supabase.auth.signInWithPassword` returns and the environment of the
subsequent `getUserWithProfile` call. -/
structure SignInEnv where
  authError : Option AuthError
  authUserId : Nat
  authSession : Option Session
  genv : GetUserEnv

namespace AuthService

/-- `AuthService.signIn` from auth.ts: calls
`supabase.auth.signInWithPassword`, returning its error if any;
otherwise fetches the user with profile for the authenticated id and
returns it with the session and `error: null`. -/
def signIn (env : SignInEnv) (data : SignInData) : AuthResponse × List Event :=
  match env.authError with
  | some e =>
      ({ user := none, session := none, error := some e },
       [Event.call SdkCall.signInWithPassword, Event.log "Sign in error:" (some e)])
  | none =>
      ({ user := (getUserWithProfile env.genv env.authUserId).1,
         session := env.authSession, error := none },
       Event.call SdkCall.signInWithPassword ::
         (getUserWithProfile env.genv env.authUserId).2)

end AuthService

/-- C8 counterexample environment: credentials check succeeds but the
profile select fails. -/
def c8Env : SignInEnv where
  authError := none
  authUserId := 7
  authSession := some { userId := 7 }
  genv :=
    { userError := none, user := some c1User,
      profileFor := fun _ => Except.error { message := "profile missing" } }

def c8Data : SignInData where
  email := "a@x.com"
  password := "secret1"

/-- C8 counterexample: this sign-in is successful (`error = null`) yet
the returned user carries no attached profile — the profile fetch error
was logged and the bare user returned. -/
theorem signIn_profile_not_always_attached :
    (AuthService.signIn c8Env c8Data).1.error = none ∧
    (AuthService.signIn c8Env c8Data).1.user =
      some { base := c1User, profile := none } ∧
    Event.log "Profile fetch error:" (some { message := "profile missing" })
      ∈ (AuthService.signIn c8Env c8Data).2 :=
  ⟨rfl, rfl, by decide⟩

/-- C8 (amended): when the credential check, the inner user fetch and
the profile select all succeed, the sign-in returns the user with the
profile row attached. -/
theorem signIn_attaches_profile (env : SignInEnv) (data : SignInData)
    (u : SupaUser) (pv : ProfileView)
    (hA : env.authError = none) (hU : env.genv.userError = none)
    (hu : env.genv.user = some u)
    (hp : env.genv.profileFor env.authUserId = Except.ok pv) :
    (AuthService.signIn env data).1 =
      { user := some { base := u, profile := some pv },
        session := env.authSession, error := none } := by
  unfold AuthService.signIn AuthService.getUserWithProfile
  rw [hA, hU, hu, hp]

/-- A sign-in environment where everything succeeds. -/
def c8EnvOk : SignInEnv where
  authError := none
  authUserId := 7
  authSession := some { userId := 7 }
  genv :=
    { userError := none, user := some c1User,
      profileFor := fun _ => Except.ok pvEx }

/-- C8 witness: the amended theorem at a fully successful environment. -/
theorem signIn_attaches_profile_witness :
    (AuthService.signIn c8EnvOk c8Data).1 =
      { user := some { base := c1User, profile := some pvEx },
        session := some { userId := 7 }, error := none } :=
  signIn_attaches_profile c8EnvOk c8Data c1User pvEx rfl rfl rfl rfl

/-! ## Role checks and the shape of operation results -/

namespace AuthService

/-- `AuthService.hasRole` from auth.ts:
`user?.profile?.role === role || false`, over the current user. -/
def hasRole (env : GetUserEnv) (role : Role) : Bool :=
  match (getCurrentUser env).1 with
  | some u =>
      match u.profile with
      | some pv => pv.role == role
      | none => false
  | none => false

/-- `AuthService.isAdmin` from auth.ts: `hasRole('admin')`. -/
def isAdmin (env : GetUserEnv) : Bool :=
  hasRole env Role.admin

end AuthService

/-- Two environments in which `supabase.auth.getUser` fails with two
different errors. -/
def gFail1 : GetUserEnv where
  userError := some { message := "network down" }
  user := none
  profileFor := fun _ => Except.error { message := "x" }

def gFail2 : GetUserEnv where
  userError := some { message := "invalid JWT" }
  user := none
  profileFor := fun _ => Except.error { message := "x" }

/-- C9 counterexample: `getCurrentUser` is not tri-state — two distinct
provider failures collapse to the same bare `null`, so its result
carries no error object describing the failure. -/
theorem getCurrentUser_not_tristate :
    (AuthService.getCurrentUser gFail1).1 = none ∧
    (AuthService.getCurrentUser gFail2).1 = none ∧
    gFail1.userError ≠ gFail2.userError :=
  ⟨rfl, rfl, by decide⟩

/-- C9 (amended): `signUp`, `signIn` and `signOut` surface the provider
error unchanged; `getCurrentUser` instead collapses every failure to
`null`, logging the error, and `hasRole` collapses it to `false`; no
operation is retried internally: `signUp`, `signIn` and `signOut` issue
their primary SDK call exactly once, and a `getCurrentUser` whose user
fetch fails has issued that fetch exactly once (it is not reissued after
the failure; on the success path the fetch is issued a second time
inside `getUserWithProfile`, a duplicate call rather than a retry). -/
theorem ops_result_shape (genv : GetUserEnv) (role : Role)
    (env : SignUpEnv) (data : SignUpData) (envI : SignInEnv)
    (dataI : SignInData) (p : Provider) (errO : Option AuthError) :
    (∀ e, genv.userError = some e →
      (AuthService.getCurrentUser genv).1 = none ∧
      Event.log "Get user error:" (some e) ∈ (AuthService.getCurrentUser genv).2 ∧
      AuthService.hasRole genv role = false ∧
      (AuthService.getCurrentUser genv).2.count (Event.call SdkCall.authGetUser) = 1) ∧
    (∀ e, env.authError = some e → (AuthService.signUp env data).1.error = some e) ∧
    (∀ e, envI.authError = some e → (AuthService.signIn envI dataI).1.error = some e) ∧
    (∀ e, (AuthService.signOut p (some e)).1.1 = some e) ∧
    (AuthService.signUp env data).2.count (Event.call SdkCall.authSignUp) = 1 ∧
    (AuthService.signIn envI dataI).2.count (Event.call SdkCall.signInWithPassword) = 1 ∧
    (AuthService.signOut p errO).2.count (Event.call SdkCall.authSignOut) = 1 := by
  refine ⟨?_, ?_, ?_, ?_, ?_, ?_, ?_⟩
  · intro e he
    refine ⟨?_, ?_, ?_, ?_⟩
    · unfold AuthService.getCurrentUser
      rw [he]
    · unfold AuthService.getCurrentUser
      rw [he]
      simp
    · unfold AuthService.hasRole AuthService.getCurrentUser
      rw [he]
    · unfold AuthService.getCurrentUser
      rw [he]
      rfl
  · intro e he
    unfold AuthService.signUp
    rw [he]
  · intro e he
    unfold AuthService.signIn
    rw [he]
  · intro e
    rfl
  · unfold AuthService.signUp
    rcases env.authError with - | e
    · rcases env.authUser with - | u
      · rfl
      · rcases env.profileInsertError with - | pe
        · rfl
        · rfl
    · rfl
  · unfold AuthService.signIn
    rcases envI.authError with - | e
    · unfold AuthService.getUserWithProfile
      rcases h1 : envI.genv.userError with - | e1
      · rcases h2 : envI.genv.user with - | u
        · simp [h1, h2, List.count]
        · rcases h3 : envI.genv.profileFor envI.authUserId with e2 | pv
          · simp [h1, h2, h3, List.count]
          · simp [h1, h2, h3, List.count]
      · simp [h1, List.count]
    · rfl
  · unfold AuthService.signOut
    rcases errO with - | e
    · rfl
    · rfl

/-- A signup environment in which the provider rejects the
credentials. -/
def c9ErrEnv : SignUpEnv where
  authError := some { message := "bad creds" }
  authUser := none
  authSession := none
  profileInsertError := none

/-- A signed-out provider used by the C9 witness. -/
def provEx : Provider where
  session := none
  userOf := fun _ => c1User
  profileFor := fun _ => Except.ok pvEx

/-- C9 witness: the amended theorem at concrete environments. -/
theorem ops_result_shape_witness :
    ((AuthService.getCurrentUser gFail1).1 = none ∧
      Event.log "Get user error:" (some { message := "network down" })
        ∈ (AuthService.getCurrentUser gFail1).2 ∧
      AuthService.hasRole gFail1 Role.admin = false ∧
      (AuthService.getCurrentUser gFail1).2.count
        (Event.call SdkCall.authGetUser) = 1) ∧
    (AuthService.signUp c9ErrEnv c1Data).1.error = some { message := "bad creds" } ∧
    (AuthService.signIn c8EnvOk c8Data).2.count
      (Event.call SdkCall.signInWithPassword) = 1 :=
  ⟨(ops_result_shape gFail1 Role.admin c9ErrEnv c1Data c8EnvOk c8Data
      provEx none).1 { message := "network down" } rfl,
   (ops_result_shape gFail1 Role.admin c9ErrEnv c1Data c8EnvOk c8Data
      provEx none).2.1 { message := "bad creds" } rfl,
   (ops_result_shape gFail1 Role.admin c9ErrEnv c1Data c8EnvOk c8Data
      provEx none).2.2.2.2.2.1⟩

/-! ## The context layer's signUp -/

namespace AuthProvider

/-- The `SignUpData` the context's `signUp` passes to the service
(part_001 lines 100-105): the role field is the literal `'user'`;
the context signature exposes no role parameter at all. -/
def signUpCall (email password : String) (fullName : Option String) :
    SignUpData :=
  { email := email, password := password, fullName := fullName,
    role := some Role.user }

/-- The context's `signUp` operation: delegate to the service with the
constant-role data. -/
def signUp (env : SignUpEnv) (email password : String)
    (fullName : Option String) : AuthResponse × List Event :=
  AuthService.signUp env (signUpCall email password fullName)

end AuthProvider

/-- C10: whatever the caller passes, the context layer signs up with
role `'user'`: the data handed to the service carries `role = 'user'`,
and both profile-creation paths derived from it store role `user`. -/
theorem context_signUp_role_is_user (email password : String)
    (fullName : Option String) (uid : Nat) (env : SignUpEnv) :
    (AuthProvider.signUpCall email password fullName).role = some Role.user ∧
    (clientInsertReq (mkAuthUser uid (AuthProvider.signUpCall email password fullName))
      (AuthProvider.signUpCall email password fullName)).role = Role.user ∧
    (handle_new_user (mkAuthUser uid
      (AuthProvider.signUpCall email password fullName))).role = Role.user ∧
    AuthProvider.signUp env email password fullName =
      AuthService.signUp env (AuthProvider.signUpCall email password fullName) :=
  ⟨rfl, rfl, rfl, rfl⟩
